import Mathlib

set_option maxRecDepth 6000

/-
Verification of the tg_home_sensors core logic.

Shallow embedding conventions:
- Python floats are modelled as exact rationals (ℚ).
- UTC datetimes are modelled as rational seconds since the Unix epoch; the
  ambient `datetime.now(timezone.utc)` is passed explicitly as a `now` argument.
- Fallible Python code (raising / returning None) is modelled with Option/Except.
-/

/-- Python `round(q, 2)` idealized on rationals: round `q * 100` to the nearest
integer, ties to even, then divide by 100 (banker's rounding, as in CPython). -/
def roundHalfEven (q : ℚ) : ℤ :=
  let f : ℤ := ⌊q⌋
  let frac : ℚ := q - (f : ℚ)
  if frac < 1/2 then f
  else if 1/2 < frac then f + 1
  else if f % 2 = 0 then f else f + 1

/-- `round(v, 2)` from CPython, on rationals. -/
def pyRound2 (q : ℚ) : ℚ := ((roundHalfEven (q * 100) : ℤ) : ℚ) / 100

/-- Python `int(x)` on a float: truncation toward zero. -/
def pyTruncInt (q : ℚ) : ℤ := if 0 ≤ q then ⌊q⌋ else -⌊-q⌋

/-- Python `min(xs)` over a nonempty list, `none` when empty (where Python raises). -/
def pyMin (xs : List ℚ) : Option ℚ :=
  match xs with
  | [] => none
  | x :: rest => some (rest.foldl min x)

/-- Python `max(xs)` over a nonempty list, `none` when empty (where Python raises). -/
def pyMax (xs : List ℚ) : Option ℚ :=
  match xs with
  | [] => none
  | x :: rest => some (rest.foldl max x)

/-- src/bot/models/sensor_reading.py: `SensorReading` — one validated telemetry
sample. `timestamp` is UTC epoch seconds. -/
structure SensorReading where
  humidity : ℚ
  dht_temperature : ℚ
  lm35_temperature : ℚ
  thermistor_temperature : ℚ
  timestamp : ℚ
deriving DecidableEq

/-- Pydantic validation of `SensorReading` construction: the `Field(ge, le)`
range constraints apply to the raw values, the `timestamp_not_future` validator
rejects `timestamp > now`, and the `round_to_two_decimals` after-validator
stores each numeric field as `round(v, 2)`. Returns `none` where pydantic
raises a ValidationError. -/
def SensorReading.mk? (humidity dht lm35 therm ts now : ℚ) : Option SensorReading :=
  if 0 ≤ humidity ∧ humidity ≤ 100
      ∧ -40 ≤ dht ∧ dht ≤ 125
      ∧ -40 ≤ lm35 ∧ lm35 ≤ 125
      ∧ -40 ≤ therm ∧ therm ≤ 125
      ∧ ts ≤ now then
    some ⟨pyRound2 humidity, pyRound2 dht, pyRound2 lm35, pyRound2 therm, ts⟩
  else none

/-- The `Literal["normal", "high_humidity", "low_humidity"]` alert states. -/
inductive HumidityState where
  | normal
  | high_humidity
  | low_humidity
deriving DecidableEq

/-- The `Literal["high", "low"]` alert types. -/
inductive AlertType where
  | high
  | low
deriving DecidableEq

/-- src/bot/models/alert_state.py: `AlertState`. -/
structure AlertState where
  chat_id : ℤ
  current_state : HumidityState
  last_alert_time : Option ℚ
  last_alert_type : Option AlertType
deriving DecidableEq

/-- src/bot/models/alert_state.py: `AlertState.should_send_alert`. The Python
`datetime.now(timezone.utc)` inside the cooldown check is the `now` argument. -/
def AlertState.should_send_alert (s : AlertState) (new_state : HumidityState)
    (cooldown_seconds : ℚ) (now : ℚ) : Bool :=
  if new_state ≠ s.current_state then true
  else if new_state ≠ HumidityState.normal then
    match s.last_alert_time with
    | none => true
    | some t => decide (cooldown_seconds ≤ now - t)
  else false

/-- src/bot/models/user.py: `User` — a registered recipient with thresholds. -/
structure User where
  chat_id : ℤ
  humidity_min : ℚ
  humidity_max : ℚ
  created_at : ℚ
  updated_at : ℚ
deriving DecidableEq

/-- src/bot/services/alert_manager.py: `AlertManager.determine_state`. -/
def determine_state (reading : SensorReading) (user : User) : HumidityState :=
  if reading.humidity > user.humidity_max then HumidityState.high_humidity
  else if reading.humidity < user.humidity_min then HumidityState.low_humidity
  else HumidityState.normal

/-- src/bot/models/serial_connection.py: `SerialConnection`. -/
structure SerialConnection where
  port : String
  baud_rate : ℕ
  timeout : ℚ
  is_connected : Bool
  last_successful_read : Option ℚ
  reconnect_attempts : ℕ
  backoff_delay : ℚ
deriving DecidableEq

/-- A freshly constructed `SerialConnection` with the model's default values
(`is_connected=False`, `reconnect_attempts=0`, `backoff_delay=1.0`). -/
def SerialConnection.fresh (port : String) : SerialConnection :=
  { port := port
    baud_rate := 9600
    timeout := 2
    is_connected := false
    last_successful_read := none
    reconnect_attempts := 0
    backoff_delay := 1 }

/-- `SerialConnection.calculate_backoff`: `max(min(2 ** attempts, 60.0), 1.0)`. -/
def SerialConnection.calculate_backoff (c : SerialConnection) : ℚ :=
  max (min ((2 : ℚ) ^ c.reconnect_attempts) 60) 1

/-- `SerialConnection.reset_backoff`: successful connect. -/
def SerialConnection.reset_backoff (c : SerialConnection) : SerialConnection :=
  { c with reconnect_attempts := 0, backoff_delay := 1, is_connected := true }

/-- `SerialConnection.increment_backoff`: failed connect attempt. The attempts
counter is incremented first, then the delay is recomputed from the new value. -/
def SerialConnection.increment_backoff (c : SerialConnection) : SerialConnection :=
  let c1 := { c with reconnect_attempts := c.reconnect_attempts + 1, is_connected := false }
  { c1 with backoff_delay := c1.calculate_backoff }

/-- Outcome of one connect attempt driving the backoff state machine. -/
inductive ConnectOutcome where
  | success
  | failure
deriving DecidableEq

/-- One connect attempt: success resets the backoff, failure increments it. -/
def SerialConnection.applyConnect (c : SerialConnection) (o : ConnectOutcome) : SerialConnection :=
  match o with
  | ConnectOutcome.success => c.reset_backoff
  | ConnectOutcome.failure => c.increment_backoff

/- ===== C1 ===== -/

/-- C1: with cooldown 300s, `should_send_alert(t)` is true iff the target state
differs from the current one, or the state is an unchanged non-normal state and
either no alert was ever sent or at least 300 seconds have elapsed since the
last one (boundary inclusive); an unchanged normal state never alerts. -/
theorem c1_should_send_alert_spec (s : AlertState) (t : HumidityState) (now : ℚ) :
    s.should_send_alert t 300 now = true ↔
      (t ≠ s.current_state ∨
        (t ≠ HumidityState.normal ∧
          (s.last_alert_time = none ∨
            ∃ lt, s.last_alert_time = some lt ∧ 300 ≤ now - lt))) := by
  unfold AlertState.should_send_alert
  by_cases h1 : t = s.current_state
  · subst h1
    by_cases h2 : s.current_state = HumidityState.normal
    · simp [h2]
    · cases hlt : s.last_alert_time with
      | none => simp [h2, hlt]
      | some u => simp [h2, hlt]
  · simp [h1]

/- ===== C2 ===== -/

/-- C2: with `humidity_min < humidity_max`, `determine_state` classifies a
reading as high iff humidity exceeds the max (checked first), low iff it is at
most the max and below the min, and normal iff it lies in `[min, max]`. -/
theorem c2_determine_state_spec (reading : SensorReading) (user : User)
    (_hlt : user.humidity_min < user.humidity_max) :
    (determine_state reading user = HumidityState.high_humidity ↔
        user.humidity_max < reading.humidity)
    ∧ (determine_state reading user = HumidityState.low_humidity ↔
        reading.humidity ≤ user.humidity_max ∧ reading.humidity < user.humidity_min)
    ∧ (determine_state reading user = HumidityState.normal ↔
        user.humidity_min ≤ reading.humidity ∧ reading.humidity ≤ user.humidity_max) := by
  by_cases hhi : user.humidity_max < reading.humidity
  · have hds : determine_state reading user = HumidityState.high_humidity := by
      simp [determine_state, hhi]
    rw [hds]
    refine ⟨iff_of_true rfl hhi, iff_of_false (by simp) ?_, iff_of_false (by simp) ?_⟩
    · rintro ⟨a, _⟩
      exact absurd hhi (not_lt.mpr a)
    · rintro ⟨_, b⟩
      exact absurd hhi (not_lt.mpr b)
  · by_cases hlo : reading.humidity < user.humidity_min
    · have hds : determine_state reading user = HumidityState.low_humidity := by
        simp [determine_state, hhi, hlo]
      rw [hds]
      refine ⟨iff_of_false (by simp) hhi, iff_of_true rfl ⟨le_of_not_lt hhi, hlo⟩,
        iff_of_false (by simp) ?_⟩
      rintro ⟨a, _⟩
      exact absurd hlo (not_lt.mpr a)
    · have hds : determine_state reading user = HumidityState.normal := by
        simp [determine_state, hhi, hlo]
      rw [hds]
      refine ⟨iff_of_false (by simp) hhi, iff_of_false (by simp) ?_,
        iff_of_true rfl ⟨le_of_not_lt hlo, le_of_not_lt hhi⟩⟩
      rintro ⟨_, b⟩
      exact absurd b hlo

/-- C2 witness: thresholds 40/60 and humidity 56 classify as normal. -/
theorem c2_witness :
    ((40 : ℚ) < 60)
    ∧ (determine_state ⟨56, 23, 24, 22, 0⟩ ⟨1, 40, 60, 0, 0⟩ = HumidityState.high_humidity ↔
        (60 : ℚ) < 56)
    ∧ (determine_state ⟨56, 23, 24, 22, 0⟩ ⟨1, 40, 60, 0, 0⟩ = HumidityState.low_humidity ↔
        (56 : ℚ) ≤ 60 ∧ (56 : ℚ) < 40)
    ∧ (determine_state ⟨56, 23, 24, 22, 0⟩ ⟨1, 40, 60, 0, 0⟩ = HumidityState.normal ↔
        (40 : ℚ) ≤ 56 ∧ (56 : ℚ) ≤ 60) :=
  ⟨by norm_num, c2_determine_state_spec ⟨56, 23, 24, 22, 0⟩ ⟨1, 40, 60, 0, 0⟩ (by norm_num)⟩

/- ===== C4 ===== -/

/-- Helper: one increment or reset keeps the delay within `[1, 60]`. -/
theorem applyConnect_delay_bounds (c : SerialConnection) (o : ConnectOutcome) :
    1 ≤ (c.applyConnect o).backoff_delay ∧ (c.applyConnect o).backoff_delay ≤ 60 := by
  cases o with
  | success =>
      refine ⟨le_refl 1, ?_⟩
      show (1 : ℚ) ≤ 60
      norm_num
  | failure =>
      simp only [SerialConnection.applyConnect, SerialConnection.increment_backoff,
        SerialConnection.calculate_backoff]
      exact ⟨le_max_right _ _, max_le (min_le_right _ _) (by norm_num)⟩

/-- Helper: delay bound preserved along any sequence of connect outcomes. -/
theorem foldl_applyConnect_delay_bounds (ops : List ConnectOutcome) :
    ∀ c : SerialConnection, 1 ≤ c.backoff_delay → c.backoff_delay ≤ 60 →
      1 ≤ (ops.foldl SerialConnection.applyConnect c).backoff_delay
      ∧ (ops.foldl SerialConnection.applyConnect c).backoff_delay ≤ 60 := by
  induction ops with
  | nil => exact fun c h1 h2 => ⟨h1, h2⟩
  | cons o rest ih =>
      intro c _ _
      have step := applyConnect_delay_bounds c o
      exact ih (c.applyConnect o) step.1 step.2

/-- Helper: after n consecutive failed connects from a fresh connection, the
attempt counter is n and the delay is `min(2^n, 60)`. -/
theorem iterate_increment_backoff (p : String) (n : ℕ) :
    ((SerialConnection.increment_backoff)^[n] (SerialConnection.fresh p)).reconnect_attempts = n
    ∧ ((SerialConnection.increment_backoff)^[n] (SerialConnection.fresh p)).backoff_delay
        = min ((2 : ℚ) ^ n) 60 := by
  induction n with
  | zero =>
      constructor
      · rfl
      · simp [SerialConnection.fresh]
  | succ k ih =>
      have h2 : (1 : ℚ) ≤ 2 ^ (k + 1) := by
        calc (1 : ℚ) = 1 ^ (k + 1) := (one_pow _).symm
        _ ≤ 2 ^ (k + 1) := by
              apply pow_le_pow_left₀ <;> norm_num
      have hmin : (1 : ℚ) ≤ min ((2 : ℚ) ^ (k + 1)) 60 := le_min h2 (by norm_num)
      rw [Function.iterate_succ_apply']
      constructor
      · simp [SerialConnection.increment_backoff, ih.1]
      · simp [SerialConnection.increment_backoff, SerialConnection.calculate_backoff, ih.1,
          max_eq_left hmin]

/-- C4: starting from a fresh `SerialConnection`, n consecutive failed connects
yield `reconnect_attempts = n` and `backoff_delay = min(2^n, 60)`; the delay
stays within `[1, 60]` under every sequence of increment/reset operations; and
`reset_backoff` restores 0 attempts and a 1-second delay. -/
theorem c4_backoff_spec :
    (∀ (p : String) (n : ℕ),
      ((SerialConnection.increment_backoff)^[n] (SerialConnection.fresh p)).reconnect_attempts = n
      ∧ ((SerialConnection.increment_backoff)^[n] (SerialConnection.fresh p)).backoff_delay
          = min ((2 : ℚ) ^ n) 60)
    ∧ (∀ (p : String) (ops : List ConnectOutcome),
        1 ≤ (ops.foldl SerialConnection.applyConnect (SerialConnection.fresh p)).backoff_delay
        ∧ (ops.foldl SerialConnection.applyConnect (SerialConnection.fresh p)).backoff_delay ≤ 60)
    ∧ (∀ c : SerialConnection,
        (c.reset_backoff).reconnect_attempts = 0 ∧ (c.reset_backoff).backoff_delay = 1) := by
  refine ⟨iterate_increment_backoff, ?_, ?_⟩
  · intro p ops
    refine foldl_applyConnect_delay_bounds ops (SerialConnection.fresh p) (le_refl 1) ?_
    show (1 : ℚ) ≤ 60
    norm_num
  · intro c
    exact ⟨rfl, rfl⟩

/- ===== Alert orchestration (src/bot/services/alert_manager.py) ===== -/

/-- Outcome of one `bot.send_message` call: success, a permanent
blocked/forbidden failure, or any other (transient) exception. -/
inductive SendOutcome where
  | ok
  | forbidden
  | transientError
deriving DecidableEq

/-- The durable Store: the `users`, `alert_states` and `sensor_readings`
relations. -/
structure Store where
  users : List User
  alert_states : List AlertState
  readings : List SensorReading
deriving DecidableEq

/-- `SELECT * FROM users WHERE chat_id = ?`. -/
def Store.findUser (s : Store) (chat_id : ℤ) : Option User :=
  s.users.find? (fun u => decide (u.chat_id = chat_id))

/-- `SELECT * FROM alert_states WHERE chat_id = ?`. -/
def Store.findAlertState (s : Store) (chat_id : ℤ) : Option AlertState :=
  s.alert_states.find? (fun st => decide (st.chat_id = chat_id))

/-- One of the three rendered alert messages, carrying the reading values and
thresholds that the `format_*` helpers interpolate. -/
inductive AlertMessage where
  | high_alert (reading : SensorReading) (user : User)
  | low_alert (reading : SensorReading) (user : User)
  | recovery (reading : SensorReading) (user : User)
deriving DecidableEq

/-- Observable side effects of one `process_reading` call: attempted
`bot.send_message` calls and committed alert-state UPDATEs. -/
structure Trace where
  sends : List (ℤ × AlertMessage)
  writes : List (ℤ × HumidityState)
deriving DecidableEq

/-- `AlertManager.update_alert_state`: the UPDATE on `alert_states` — clears
the alert time/type on recovery to `normal`, otherwise stamps `now` and the
alert type. -/
def update_alert_state (store : Store) (chat_id : ℤ)
    (new_state : HumidityState) (alert_type : Option AlertType) (now : ℚ) : Store :=
  { store with
    alert_states := store.alert_states.map (fun st =>
      if st.chat_id = chat_id then
        if new_state = HumidityState.normal then
          { st with current_state := new_state, last_alert_time := none, last_alert_type := none }
        else
          { st with current_state := new_state, last_alert_time := some now,
                    last_alert_type := alert_type }
      else st) }

/-- `AlertManager.process_reading` with `cooldown_seconds = 300`. The whole
body runs inside `try/except Exception`: a raising `bot.send_message`
(modelled by `send_outcome ≠ ok`) jumps to the handler, which only logs, so
the alert-state UPDATE after the send is skipped and the Store is untouched.
Returns the new Store and the trace of attempted sends / committed writes. -/
def process_reading (store : Store) (send_outcome : SendOutcome)
    (reading : SensorReading) (chat_id : ℤ) (now : ℚ) : Store × Trace :=
  match store.findUser chat_id with
  | none => (store, ⟨[], []⟩)
  | some user =>
    match store.findAlertState chat_id with
    | none => (store, ⟨[], []⟩)
    | some alert_state =>
      let new_state := determine_state reading user
      let should_alert := alert_state.should_send_alert new_state 300 now
      if should_alert then
        if new_state = HumidityState.high_humidity then
          if send_outcome = SendOutcome.ok then
            (update_alert_state store chat_id new_state (some AlertType.high) now,
             ⟨[(chat_id, AlertMessage.high_alert reading user)], [(chat_id, new_state)]⟩)
          else (store, ⟨[(chat_id, AlertMessage.high_alert reading user)], []⟩)
        else if new_state = HumidityState.low_humidity then
          if send_outcome = SendOutcome.ok then
            (update_alert_state store chat_id new_state (some AlertType.low) now,
             ⟨[(chat_id, AlertMessage.low_alert reading user)], [(chat_id, new_state)]⟩)
          else (store, ⟨[(chat_id, AlertMessage.low_alert reading user)], []⟩)
        else if new_state = HumidityState.normal ∧ alert_state.current_state ≠ HumidityState.normal then
          if send_outcome = SendOutcome.ok then
            (update_alert_state store chat_id new_state none now,
             ⟨[(chat_id, AlertMessage.recovery reading user)], [(chat_id, new_state)]⟩)
          else (store, ⟨[(chat_id, AlertMessage.recovery reading user)], []⟩)
        else (store, ⟨[], []⟩)
      else (store, ⟨[], []⟩)

/- ===== C3 ===== -/

/-- C3: the code does NOT implement the claimed blocked-recipient cleanup.
With a registered user (thresholds 40/60, state normal) and a reading of
72.5% humidity, a `forbidden` send failure leaves the user and alert state in
the Store, and a second `process_reading` for the same recipient attempts a
second send — contradicting the claim (and the repository's own integration
test `test_blocked_user_removed_stops_retry_spam`). The reading has humidity
`mkRat 145 2 = 72.5`. -/
theorem c3_blocked_user_not_removed :
    (let store0 : Store :=
      { users := [⟨12345, 40, 60, 0, 0⟩],
        alert_states := [⟨12345, HumidityState.normal, none, none⟩],
        readings := [] }
     let reading0 : SensorReading := ⟨mkRat 145 2, mkRat 142 5, mkRat 291 10, mkRat 139 5, 0⟩
     let first := process_reading store0 SendOutcome.forbidden reading0 12345 100
     (first.1.findUser 12345 = some ⟨12345, 40, 60, 0, 0⟩)
     ∧ first.1 = store0
     ∧ first.2.sends.length = 1
     ∧ (process_reading first.1 SendOutcome.forbidden reading0 12345 200).2.sends.length = 1) := by
  decide

/- ===== C7 ===== -/

/-- C7: every `process_reading` invocation attempts at most one Messenger send
and commits at most one alert-state write; and when the send raises a
transient (non-permanent) error, no write happens and the Store — in
particular the stored AlertState — is exactly what it was before. -/
theorem c7_process_reading_effects (store : Store) (send_outcome : SendOutcome)
    (reading : SensorReading) (chat_id : ℤ) (now : ℚ) :
    (process_reading store send_outcome reading chat_id now).2.sends.length ≤ 1
    ∧ (process_reading store send_outcome reading chat_id now).2.writes.length ≤ 1
    ∧ (send_outcome = SendOutcome.transientError →
        (process_reading store send_outcome reading chat_id now).2.writes = []
        ∧ (process_reading store send_outcome reading chat_id now).1 = store) := by
  unfold process_reading
  cases hu : store.findUser chat_id with
  | none => simp
  | some user =>
    cases ha : store.findAlertState chat_id with
    | none => simp
    | some alert_state =>
      by_cases hs : (alert_state.should_send_alert (determine_state reading user) 300 now) = true
      · simp only [hs, if_true]
        by_cases hhi : determine_state reading user = HumidityState.high_humidity
        · cases send_outcome <;> simp [hhi]
        · by_cases hlo : determine_state reading user = HumidityState.low_humidity
          · cases send_outcome <;> simp [hhi, hlo]
          · by_cases hrec : determine_state reading user = HumidityState.normal
                ∧ alert_state.current_state ≠ HumidityState.normal
            · cases send_outcome <;> simp [hhi, hlo, hrec]
            · cases send_outcome <;> simp [hhi, hlo, hrec]
      · simp [hs]

/-- C7 witness: a transient send failure on a high-humidity reading leaves the
Store untouched and performs exactly one send attempt. -/
theorem c7_witness :
    (process_reading
        { users := [⟨7, 40, 60, 0, 0⟩],
          alert_states := [⟨7, HumidityState.normal, none, none⟩],
          readings := [] }
        SendOutcome.transientError ⟨mkRat 145 2, mkRat 142 5, mkRat 291 10, mkRat 139 5, 0⟩
        7 100).2.sends.length ≤ 1
    ∧ (process_reading
        { users := [⟨7, 40, 60, 0, 0⟩],
          alert_states := [⟨7, HumidityState.normal, none, none⟩],
          readings := [] }
        SendOutcome.transientError ⟨mkRat 145 2, mkRat 142 5, mkRat 291 10, mkRat 139 5, 0⟩
        7 100).2.writes = []
    ∧ (process_reading
        { users := [⟨7, 40, 60, 0, 0⟩],
          alert_states := [⟨7, HumidityState.normal, none, none⟩],
          readings := [] }
        SendOutcome.transientError ⟨mkRat 145 2, mkRat 142 5, mkRat 291 10, mkRat 139 5, 0⟩
        7 100).1
      = { users := [⟨7, 40, 60, 0, 0⟩],
          alert_states := [⟨7, HumidityState.normal, none, none⟩],
          readings := [] } :=
  ⟨(c7_process_reading_effects _ _ _ _ _).1,
   ((c7_process_reading_effects _ _ _ _ _).2.2 rfl).1,
   ((c7_process_reading_effects _ _ _ _ _).2.2 rfl).2⟩

/- ===== Telemetry parsing (src/bot/services/data_parser.py) ===== -/

/-- JSON values as produced by Python `json.loads`. -/
inductive Json where
  | null : Json
  | bool : Bool → Json
  | num : ℚ → Json
  | str : String → Json
  | arr : List Json → Json
  | obj : List (String × Json) → Json

/-- The double-quote character. -/
def chQuote : Char := Char.ofNat 34

/-- The backslash character. -/
def chBackslash : Char := Char.ofNat 92

/-- The opening-brace character. -/
def chLBrace : Char := Char.ofNat 123

/-- The closing-brace character. -/
def chRBrace : Char := Char.ofNat 125

/-- JSON insignificant whitespace (space, tab, newline, carriage return). -/
def isWs (c : Char) : Bool :=
  c == ' ' || c == Char.ofNat 9 || c == Char.ofNat 10 || c == Char.ofNat 13

/-- Drop leading whitespace. -/
def skipWs : List Char → List Char
  | [] => []
  | c :: rest => if isWs c then skipWs rest else c :: rest

/-- ASCII decimal digit test. -/
def isDigit (c : Char) : Bool := '0' ≤ c && c ≤ '9'

/-- Value of an ASCII decimal digit. -/
def digitVal (c : Char) : ℕ := c.toNat - Char.toNat '0'

/-- Split a maximal run of leading digits from the rest. -/
def takeDigits : List Char → List Char × List Char
  | [] => ([], [])
  | c :: rest =>
    if isDigit c then
      let p := takeDigits rest
      (c :: p.1, p.2)
    else ([], c :: rest)

/-- Read a digit run as a natural number. -/
def digitsToNat (ds : List Char) : ℕ :=
  ds.foldl (fun acc c => acc * 10 + digitVal c) 0

/-- `10^n` as a rational, built with core `mkRat` so that concrete payloads
kernel-evaluate without unfolding the algebra-class power tower. -/
def pow10 (n : ℕ) : ℚ := mkRat (10 ^ n) 1

/-- Parse an optional-sign exponent suffix and apply it to `v`. -/
def parseExpPart (v : ℚ) (cs : List Char) : Option (ℚ × List Char) :=
  let sgn : Bool × List Char :=
    match cs with
    | '-' :: rest => (true, rest)
    | '+' :: rest => (false, rest)
    | _ => (false, cs)
  let eds := takeDigits sgn.2
  if eds.1.isEmpty then none
  else
    let e := digitsToNat eds.1
    some ((if sgn.1 then v / pow10 e else v * pow10 e), eds.2)

/-- Parse a JSON number (integer part required, optional fraction/exponent). -/
def parseNumber (cs : List Char) : Option (ℚ × List Char) :=
  let sgn : Bool × List Char :=
    match cs with
    | '-' :: rest => (true, rest)
    | _ => (false, cs)
  let ints := takeDigits sgn.2
  if ints.1.isEmpty then none
  else
    let base : ℚ := (digitsToNat ints.1 : ℚ)
    let fracStep : Option (ℚ × List Char) :=
      match ints.2 with
      | '.' :: rest =>
        let fds := takeDigits rest
        if fds.1.isEmpty then none
        else some (base + (digitsToNat fds.1 : ℚ) / pow10 fds.1.length, fds.2)
      | _ => some (base, ints.2)
    match fracStep with
    | none => none
    | some (v1, cs3) =>
      let expStep : Option (ℚ × List Char) :=
        match cs3 with
        | 'e' :: rest => parseExpPart v1 rest
        | 'E' :: rest => parseExpPart v1 rest
        | _ => some (v1, cs3)
      match expStep with
      | none => none
      | some (v2, cs4) => some ((if sgn.1 then -v2 else v2), cs4)

/-- Parse the body of a JSON string after the opening quote (common escapes;
no unicode escapes, which no payload of this system uses). -/
def parseStringChars : ℕ → List Char → Option (List Char × List Char)
  | _, [] => none
  | 0, _ => none
  | fuel + 1, c :: rest =>
    if c = chQuote then some ([], rest)
    else if c = chBackslash then
      match rest with
      | [] => none
      | e :: rest2 =>
        let esc : Option Char :=
          if e = chQuote then some chQuote
          else if e = chBackslash then some chBackslash
          else if e = '/' then some '/'
          else if e = 'n' then some (Char.ofNat 10)
          else if e = 't' then some (Char.ofNat 9)
          else if e = 'r' then some (Char.ofNat 13)
          else if e = 'b' then some (Char.ofNat 8)
          else if e = 'f' then some (Char.ofNat 12)
          else none
        match esc with
        | none => none
        | some ch =>
          match parseStringChars fuel rest2 with
          | none => none
          | some (s, r) => some (ch :: s, r)
    else
      match parseStringChars fuel rest with
      | none => none
      | some (s, r) => some (c :: s, r)

mutual

/-- Parse one JSON value (fuel-bounded recursive descent). -/
def parseJson (fuel : ℕ) (cs : List Char) : Option (Json × List Char) :=
  match fuel with
  | 0 => none
  | fuel' + 1 =>
    match skipWs cs with
    | [] => none
    | c :: rest =>
      if c = chLBrace then
        match parseMembers fuel' rest true with
        | none => none
        | some (ms, r) => some (Json.obj ms, r)
      else if c = '[' then
        match parseElements fuel' rest true with
        | none => none
        | some (vs, r) => some (Json.arr vs, r)
      else if c = chQuote then
        match parseStringChars (rest.length + 1) rest with
        | none => none
        | some (s, r) => some (Json.str (String.mk s), r)
      else if c = 't' then
        match rest with
        | 'r' :: 'u' :: 'e' :: r => some (Json.bool true, r)
        | _ => none
      else if c = 'f' then
        match rest with
        | 'a' :: 'l' :: 's' :: 'e' :: r => some (Json.bool false, r)
        | _ => none
      else if c = 'n' then
        match rest with
        | 'u' :: 'l' :: 'l' :: r => some (Json.null, r)
        | _ => none
      else
        match parseNumber (c :: rest) with
        | none => none
        | some (q, r) => some (Json.num q, r)
termination_by fuel

/-- Parse object members after the opening brace. -/
def parseMembers (fuel : ℕ) (cs : List Char) (isFirst : Bool) :
    Option (List (String × Json) × List Char) :=
  match fuel with
  | 0 => none
  | fuel' + 1 =>
    match skipWs cs with
    | [] => none
    | c :: rest =>
      if c = chRBrace then
        if isFirst then some ([], rest) else none
      else if c = chQuote then
        match parseStringChars (rest.length + 1) rest with
        | none => none
        | some (key, r1) =>
          match skipWs r1 with
          | ':' :: r2 =>
            match parseJson fuel' r2 with
            | none => none
            | some (v, r3) =>
              match skipWs r3 with
              | ',' :: r4 =>
                match parseMembers fuel' r4 false with
                | none => none
                | some (ms, r5) => some ((String.mk key, v) :: ms, r5)
              | d :: r4 =>
                if d = chRBrace then some ([(String.mk key, v)], r4) else none
              | [] => none
          | _ => none
      else none
termination_by fuel

/-- Parse array elements after the opening bracket. -/
def parseElements (fuel : ℕ) (cs : List Char) (isFirst : Bool) :
    Option (List Json × List Char) :=
  match fuel with
  | 0 => none
  | fuel' + 1 =>
    match skipWs cs with
    | [] => none
    | c :: rest =>
      if c = ']' then
        if isFirst then some ([], rest) else none
      else
        match parseJson fuel' (c :: rest) with
        | none => none
        | some (v, r1) =>
          match skipWs r1 with
          | ',' :: r2 =>
            match parseElements fuel' r2 false with
            | none => none
            | some (vs, r3) => some (v :: vs, r3)
          | d :: r2 => if d = ']' then some ([v], r2) else none
          | [] => none
termination_by fuel

end

/-- Python `json.loads`: parse one value, allow surrounding whitespace, reject
trailing garbage; `none` where Python raises `JSONDecodeError`. -/
def json_loads (data : String) : Option Json :=
  let cs := data.toList
  match parseJson (cs.length + 1) cs with
  | none => none
  | some (v, rest) => if (skipWs rest).isEmpty then some v else none

/-- Python dict lookup for a JSON object: the last duplicate key wins, as in
`json.loads`. -/
def jsonLookup (fields : List (String × Json)) (key : String) : Option Json :=
  fields.foldl (fun acc kv => if kv.1 = key then some kv.2 else acc) none

/-- `SENSOR_FIELD_ALIASES`: accepted payload keys per contract field, in
priority order. -/
def sensorFieldAliases (field : String) : List String :=
  if field = ("humidity") then [("humidity")]
  else if field = ("dht_temperature") then [("dht_temperature"), ("dht_temp")]
  else if field = ("lm35_temperature") then [("lm35_temperature"), ("lm35_temp")]
  else if field = ("thermistor_temperature") then [("thermistor_temperature"), ("therm_temp")]
  else []

/-- The numeric body of Python `float(str)`: optional sign, then digits with an
optional fraction (at least one digit overall). -/
def parsePyFloatBody (cs : List Char) : Option (ℚ × List Char) :=
  let ip := takeDigits cs
  match ip.2 with
  | '.' :: r =>
    let fp := takeDigits r
    if ip.1.isEmpty && fp.1.isEmpty then none
    else
      some ((digitsToNat ip.1 : ℚ) + (digitsToNat fp.1 : ℚ) / pow10 fp.1.length, fp.2)
  | _ =>
    if ip.1.isEmpty then none else some ((digitsToNat ip.1 : ℚ), ip.2)

/-- Python `float(s)` on a string: strips surrounding whitespace, optional
sign, decimal literal with optional exponent; `none` where Python raises
`ValueError`. -/
def pyFloatOfString (s : String) : Option ℚ :=
  let cs := skipWs s.toList
  let sgn : Bool × List Char :=
    match cs with
    | '-' :: r => (true, r)
    | '+' :: r => (false, r)
    | _ => (false, cs)
  match parsePyFloatBody sgn.2 with
  | none => none
  | some (v, cs2) =>
    let withExp : Option (ℚ × List Char) :=
      match cs2 with
      | 'e' :: r => parseExpPart v r
      | 'E' :: r => parseExpPart v r
      | _ => some (v, cs2)
    match withExp with
    | none => none
    | some (v2, cs3) =>
      if (skipWs cs3).isEmpty then some (if sgn.1 then -v2 else v2) else none

/-- Python `float(x)` on a JSON-decoded value: numbers pass through, bools
coerce to 1/0, numeric strings are parsed, everything else raises
(TypeError), which `_extract_float` catches and turns into `None`. -/
def pyFloat : Json → Option ℚ
  | Json.num q => some q
  | Json.bool b => some (if b then 1 else 0)
  | Json.str s => pyFloatOfString s
  | _ => none

/-- `_extract_float`: the first present alias key is used; a failed conversion
of that value returns `None` immediately (no fallback to later aliases). -/
def extract_float (fields : List (String × Json)) (field : String) : Option ℚ :=
  match (sensorFieldAliases field).find? (fun k => (jsonLookup fields k).isSome) with
  | none => none
  | some k =>
    match jsonLookup fields k with
    | none => none
    | some v => pyFloat v

/-- Gregorian leap-year test. -/
def isLeapYear (y : ℤ) : Bool :=
  (y % 4 == 0 && y % 100 != 0) || y % 400 == 0

/-- Days in a month of a given year (0 for an invalid month index). -/
def daysInMonth (y : ℤ) (m : ℕ) : ℕ :=
  if m = 1 then 31
  else if m = 2 then (if isLeapYear y then 29 else 28)
  else if m = 3 then 31
  else if m = 4 then 30
  else if m = 5 then 31
  else if m = 6 then 30
  else if m = 7 then 31
  else if m = 8 then 31
  else if m = 9 then 30
  else if m = 10 then 31
  else if m = 11 then 30
  else if m = 12 then 31
  else 0

/-- Days from the Unix epoch to civil date y-m-d (Hinnant's algorithm; ℤ
division here is floor division, which subsumes the usual era adjustment). -/
def daysFromCivil (y : ℤ) (m d : ℕ) : ℤ :=
  let y' : ℤ := if m ≤ 2 then y - 1 else y
  let era : ℤ := y' / 400
  let yoe : ℤ := y' - era * 400
  let mp : ℕ := (m + 9) % 12
  let doy : ℤ := ((153 * mp + 2) / 5 + d - 1 : ℕ)
  let doe : ℤ := yoe * 365 + yoe / 4 - yoe / 100 + doy
  era * 146097 + doe - 719468

/-- Expect one specific character. -/
def expectChar (c : Char) (cs : List Char) : Option (List Char) :=
  match cs with
  | d :: rest => if d = c then some rest else none
  | [] => none

/-- Parse exactly two digits. -/
def parse2 (cs : List Char) : Option (ℕ × List Char) :=
  match cs with
  | a :: b :: r =>
    if isDigit a && isDigit b then some (digitVal a * 10 + digitVal b, r) else none
  | _ => none

/-- Parse exactly four digits. -/
def parse4 (cs : List Char) : Option (ℕ × List Char) :=
  match cs with
  | a :: b :: c :: d :: r =>
    if isDigit a && isDigit b && isDigit c && isDigit d then
      some (digitVal a * 1000 + digitVal b * 100 + digitVal c * 10 + digitVal d, r)
    else none
  | _ => none

/-- Optional `:SS[.ffffff]` part of an ISO time; absent seconds mean 0. -/
def parseSecondsFrac (cs : List Char) : Option (ℕ × ℚ × List Char) :=
  match cs with
  | ':' :: r =>
    match parse2 r with
    | none => none
    | some (ss, r1) =>
      match r1 with
      | '.' :: r2 =>
        let fds := takeDigits r2
        if fds.1.isEmpty then none
        else some (ss, ((digitsToNat fds.1 : ℚ) / pow10 fds.1.length, fds.2))
      | _ => some (ss, (0, r1))
  | _ => some (0, (0, cs))

/-- A `±HH:MM` UTC-offset suffix, in seconds. -/
def parseOffset (cs : List Char) : Option (ℚ × List Char) :=
  let sgn : Option (ℚ × List Char) :=
    match cs with
    | '+' :: r => some (1, r)
    | '-' :: r => some (-1, r)
    | _ => none
  match sgn with
  | none => none
  | some (sign, r0) =>
    match parse2 r0 with
    | none => none
    | some (oh, r1) =>
      match expectChar ':' r1 with
      | none => none
      | some r2 =>
        match parse2 r2 with
        | none => none
        | some (om, r3) =>
          if 23 < oh || 59 < om then none
          else some (sign * ((oh * 3600 + om * 60 : ℕ) : ℚ), r3)

/-- `datetime.fromisoformat` on the formats this system produces/accepts
(`YYYY-MM-DD[{T, }HH:MM[:SS[.ffffff]][±HH:MM]]`), normalized to UTC epoch
seconds: a naive value is treated as UTC, an aware value is converted by
subtracting its offset. `none` where Python raises `ValueError`. -/
def iso_to_epoch (s : String) : Option ℚ := do
  let cs := s.toList
  let (y, r1) ← parse4 cs
  let r2 ← expectChar '-' r1
  let (mo, r3) ← parse2 r2
  let r4 ← expectChar '-' r3
  let (d, r5) ← parse2 r4
  if mo < 1 || 12 < mo then none
  else if d < 1 || daysInMonth (y : ℤ) mo < d then none
  else
    let base : ℚ := ((daysFromCivil (y : ℤ) mo d * 86400 : ℤ) : ℚ)
    match r5 with
    | [] => some base
    | t :: r6 =>
      if t = 'T' || t = ' ' then do
        let (hh, r7) ← parse2 r6
        let r8 ← expectChar ':' r7
        let (mi, r9) ← parse2 r8
        if 23 < hh || 59 < mi then none
        else do
          let (ss, frac, r10) ← parseSecondsFrac r9
          if 59 < ss then none
          else
            let tod : ℚ := ((hh * 3600 + mi * 60 + ss : ℕ) : ℚ) + frac
            match r10 with
            | [] => some (base + tod)
            | _ => do
              let (off, r11) ← parseOffset r10
              if r11.isEmpty then some (base + tod - off) else none
      else none

/-- `_parse_timestamp`: `payload.get("timestamp")` yields Python `None` both
for an absent key and for JSON `null`, in which case the reading is stamped
with the current UTC time; a string is `fromisoformat`-parsed after replacing
`Z` with `+00:00`; any other type fails. -/
def parse_timestamp (fields : List (String × Json)) (now : ℚ) : Option ℚ :=
  match jsonLookup fields ("timestamp") with
  | none => some now
  | some Json.null => some now
  | some (Json.str s) => iso_to_epoch (s.replace ("Z") ("+00:00"))
  | some _ => none

/-- The body of `parse_sensor_data` after a successful `json.loads` producing
a dict: extract the four numeric fields and the timestamp, then construct the
`SensorReading` (validation failure → `None`). -/
def parse_payload (fields : List (String × Json)) (now : ℚ) : Option SensorReading :=
  let humidity := extract_float fields ("humidity")
  let dht_temperature := extract_float fields ("dht_temperature")
  let lm35_temperature := extract_float fields ("lm35_temperature")
  let thermistor_temperature := extract_float fields ("thermistor_temperature")
  let timestamp := parse_timestamp fields now
  match humidity, dht_temperature, lm35_temperature, thermistor_temperature, timestamp with
  | some h, some d, some l, some t, some ts => SensorReading.mk? h d l t ts now
  | _, _, _, _, _ => none

/-- src/bot/services/data_parser.py: `parse_sensor_data` — JSON-decode the
raw line (failure → `None`), require a dict, then parse the payload. -/
def parse_sensor_data (data : String) (now : ℚ) : Option SensorReading :=
  match json_loads data with
  | some (Json.obj fields) => parse_payload fields now
  | _ => none

/- ===== C5 ===== -/

/-- C5 counterexample: the delimited labeled text line from the claim's first
accepted shape is rejected by `parse_sensor_data` (it is not JSON), so the
claim that the parser accepts that shape is false. -/
theorem c5_counterexample_text_shape_rejected :
    parse_sensor_data "Humidity: 56.00% DHT Temp: 23.40C LM35: 24.93C Therm: 22.73C" 1000
      = none := by
  with_unfolding_all decide

/-- C5 amended: `parse_sensor_data` accepts only the flat key-value (JSON
object) shape — with canonical keys, and with the short aliases for the three
temperature keys — producing a Reading; the delimited labeled text shape
returns `None`. -/
theorem c5_parse_shapes_amended :
    parse_sensor_data "\x7b\"humidity\":56,\"dht_temperature\":23,\"lm35_temperature\":24,\"thermistor_temperature\":22\x7d" 1000
      = some ⟨56, 23, 24, 22, 1000⟩
    ∧ parse_sensor_data "\x7b\"humidity\":56.5,\"dht_temp\":23,\"lm35_temp\":24,\"therm_temp\":22\x7d" 1000
      = some ⟨mkRat 113 2, 23, 24, 22, 1000⟩
    ∧ parse_sensor_data "Humidity: 56.00% DHT Temp: 23.40C LM35: 24.93C Therm: 22.73C" 1000
      = none :=
  ⟨by with_unfolding_all decide, by with_unfolding_all decide, by with_unfolding_all decide⟩

/- ===== C6 ===== -/

/-- C6 counterexample: the Reading constructor applies Python `round(v, 2)`,
which rounds to the nearest hundredth — `23.456` (here `mkRat 2932 125`)
becomes `23.46` (`mkRat 1173 50`), not the truncated `23.45` the claim
states. -/
theorem c6_counterexample_rounds_not_truncates :
    SensorReading.mk? 50 (mkRat 2932 125) 20 21 0 5
      = some ⟨50, mkRat 1173 50, 20, 21, 0⟩
    ∧ (mkRat 1173 50 : ℚ) ≠ mkRat 2345 100 := by
  constructor
  · with_unfolding_all decide
  · with_unfolding_all decide

/-- C6 amended: each of the four numeric fields is rounded to 2 decimal places
(nearest hundredth, ties to even, as CPython `round`), and this normalization
is performed by the Reading constructor (the pydantic validator), not by the
parser. -/
theorem c6_constructor_rounds_two_decimals (h d l t ts now : ℚ) (r : SensorReading)
    (hr : SensorReading.mk? h d l t ts now = some r) :
    r.humidity = pyRound2 h
    ∧ r.dht_temperature = pyRound2 d
    ∧ r.lm35_temperature = pyRound2 l
    ∧ r.thermistor_temperature = pyRound2 t := by
  unfold SensorReading.mk? at hr
  by_cases hc : 0 ≤ h ∧ h ≤ 100
      ∧ -40 ≤ d ∧ d ≤ 125
      ∧ -40 ≤ l ∧ l ≤ 125
      ∧ -40 ≤ t ∧ t ≤ 125
      ∧ ts ≤ now
  · rw [if_pos hc] at hr
    cases hr
    exact ⟨rfl, rfl, rfl, rfl⟩
  · rw [if_neg hc] at hr
    cases hr

/-- C6 witness: the constructor stores `round(23.456, 2) = 23.46` for the DHT
temperature field. -/
theorem c6_witness :
    (⟨50, mkRat 1173 50, 20, 21, 0⟩ : SensorReading).dht_temperature
      = pyRound2 (mkRat 2932 125) :=
  (c6_constructor_rounds_two_decimals 50 (mkRat 2932 125) 20 21 0 5
    ⟨50, mkRat 1173 50, 20, 21, 0⟩ (by with_unfolding_all decide)).2.1

/- ===== C8 ===== -/

/-- C8: `parse_sensor_data` is total (it returns an Option rather than
raising) and every failure class yields `None`: a JSON decode failure; a
missing or non-convertible required field or a malformed timestamp; and a
Reading-construction validation failure (out-of-range value or future
timestamp) on extracted values. -/
theorem c8_parse_failures_return_none (data : String) (now : ℚ) :
    (json_loads data = none → parse_sensor_data data now = none)
    ∧ (∀ fields, json_loads data = some (Json.obj fields) →
        (extract_float fields ("humidity") = none
          ∨ extract_float fields ("dht_temperature") = none
          ∨ extract_float fields ("lm35_temperature") = none
          ∨ extract_float fields ("thermistor_temperature") = none
          ∨ parse_timestamp fields now = none) →
        parse_sensor_data data now = none)
    ∧ (∀ fields h d l t ts, json_loads data = some (Json.obj fields) →
        extract_float fields ("humidity") = some h →
        extract_float fields ("dht_temperature") = some d →
        extract_float fields ("lm35_temperature") = some l →
        extract_float fields ("thermistor_temperature") = some t →
        parse_timestamp fields now = some ts →
        SensorReading.mk? h d l t ts now = none →
        parse_sensor_data data now = none) := by
  refine ⟨?_, ?_, ?_⟩
  · intro h
    simp [parse_sensor_data, h]
  · intro fields hj hfail
    have hpp : parse_payload fields now = none := by
      cases h1 : extract_float fields ("humidity") with
      | none => simp [parse_payload, h1]
      | some a =>
        cases h2 : extract_float fields ("dht_temperature") with
        | none => simp [parse_payload, h1, h2]
        | some b =>
          cases h3 : extract_float fields ("lm35_temperature") with
          | none => simp [parse_payload, h1, h2, h3]
          | some c =>
            cases h4 : extract_float fields ("thermistor_temperature") with
            | none => simp [parse_payload, h1, h2, h3, h4]
            | some e =>
              cases h5 : parse_timestamp fields now with
              | none => simp [parse_payload, h1, h2, h3, h4, h5]
              | some f =>
                rw [h1, h2, h3, h4, h5] at hfail
                rcases hfail with h | h | h | h | h <;> simp at h
    simp [parse_sensor_data, hj, hpp]
  · intro fields h d l t ts hj h1 h2 h3 h4 h5 hmk
    simp [parse_sensor_data, hj, parse_payload, h1, h2, h3, h4, h5, hmk]

/-- C8 witness: a non-JSON line, a payload missing `humidity`, and a payload
with out-of-range humidity 150 all parse to `None`. -/
theorem c8_witness :
    parse_sensor_data ("nope") 1000 = none
    ∧ parse_sensor_data "\x7b\"dht_temp\":23,\"lm35_temp\":24,\"therm_temp\":22\x7d" 1000 = none
    ∧ parse_sensor_data "\x7b\"humidity\":150,\"dht_temp\":23,\"lm35_temp\":24,\"therm_temp\":22\x7d" 1000
        = none := by
  refine ⟨?_, ?_, ?_⟩
  · exact (c8_parse_failures_return_none ("nope") 1000).1 (by with_unfolding_all rfl)
  · exact (c8_parse_failures_return_none _ 1000).2.1
      [(("dht_temp"), Json.num 23), (("lm35_temp"), Json.num 24), (("therm_temp"), Json.num 22)]
      (by with_unfolding_all rfl)
      (Or.inl (by with_unfolding_all rfl))
  · exact (c8_parse_failures_return_none _ 1000).2.2
      [(("humidity"), Json.num 150), (("dht_temp"), Json.num 23), (("lm35_temp"), Json.num 24),
        (("therm_temp"), Json.num 22)]
      150 23 24 22 1000
      (by with_unfolding_all rfl)
      (by with_unfolding_all rfl) (by with_unfolding_all rfl) (by with_unfolding_all rfl)
      (by with_unfolding_all rfl) (by with_unfolding_all rfl)
      (by with_unfolding_all decide)

/- ===== Sensor history and MCP tool service (src/bot/services/sensor_history.py,
src/mcp/server.py) ===== -/

/-- `ORDER BY recorded_at DESC`: newest-first ordering of readings. -/
def readingDescOrder (a b : SensorReading) : Prop := b.timestamp ≤ a.timestamp

instance : DecidableRel readingDescOrder :=
  fun a b => inferInstanceAs (Decidable (b.timestamp ≤ a.timestamp))

instance : IsTotal SensorReading readingDescOrder :=
  ⟨fun a b => le_total b.timestamp a.timestamp⟩

instance : IsTrans SensorReading readingDescOrder :=
  ⟨fun _ _ _ hab hbc => le_trans hbc hab⟩

/-- Sort readings newest-first (the `ORDER BY recorded_at DESC` of the
queries in `SensorHistoryService`). -/
def sortDesc (rs : List SensorReading) : List SensorReading :=
  List.insertionSort readingDescOrder rs

/-- `SensorHistoryService.get_latest`: `ORDER BY recorded_at DESC LIMIT 1`. -/
def get_latest (readings : List SensorReading) : Option SensorReading :=
  (sortDesc readings).head?

/-- `SensorHistoryService.get_recent`: guard `minutes`/`limit`, then
`WHERE recorded_at >= since ORDER BY recorded_at DESC LIMIT limit` with
`since = now - minutes minutes`. -/
def get_recent (readings : List SensorReading) (minutes limit : ℤ) (now : ℚ) :
    Except String (List SensorReading) :=
  if minutes ≤ 0 then Except.error ("minutes must be greater than 0")
  else if limit ≤ 0 then Except.error ("limit must be greater than 0")
  else
    let since : ℚ := now - (minutes : ℚ) * 60
    Except.ok ((sortDesc (readings.filter (fun r => decide (since ≤ r.timestamp)))).take limit.toNat)

/-- The `summary` block of `get_recent_readings`. -/
structure RecentSummary where
  count : ℕ
  avg_humidity : Option ℚ
  min_humidity : Option ℚ
  max_humidity : Option ℚ
deriving DecidableEq

/-- Result shape of `SensorMCPToolService.get_recent_readings`. -/
structure RecentReadingsResult where
  chat_id : ℤ
  humidity_min : ℚ
  humidity_max : ℚ
  window_minutes : ℤ
  limit : ℤ
  summary : RecentSummary
  readings : List SensorReading
deriving DecidableEq

/-- Result shape of `SensorMCPToolService.get_current_reading`. -/
structure CurrentReadingResult where
  status : String
  chat_id : ℤ
  humidity_min : ℚ
  humidity_max : ℚ
  reading : Option SensorReading
  age_seconds : Option ℤ
  is_stale : Bool
deriving DecidableEq

/-- `SensorMCPToolService.get_current_reading`: require the user, fetch the
latest reading; without one return a `no_data` result with `is_stale=True`;
otherwise compute `age_seconds = max(0, int(now - ts))` and staleness
`age_seconds > stale_after_seconds`. -/
def get_current_reading (store : Store) (chat_id : ℤ) (stale_after_seconds : ℤ)
    (now : ℚ) : Except String CurrentReadingResult :=
  match store.findUser chat_id with
  | none => Except.error ("User not found. Initialize with /start first.")
  | some user =>
    match get_latest store.readings with
    | none =>
      Except.ok { status := "no_data", chat_id := chat_id,
                  humidity_min := user.humidity_min, humidity_max := user.humidity_max,
                  reading := none, age_seconds := none, is_stale := true }
    | some reading =>
      let age_seconds : ℤ := max 0 (pyTruncInt (now - reading.timestamp))
      let is_stale : Bool := decide (stale_after_seconds < age_seconds)
      Except.ok { status := if is_stale then "stale" else "ok", chat_id := chat_id,
                  humidity_min := user.humidity_min, humidity_max := user.humidity_max,
                  reading := some reading, age_seconds := some age_seconds,
                  is_stale := is_stale }

/-- `SensorMCPToolService.get_recent_readings`: validate `minutes` and `limit`
first (before any Store access), require the user, query the window, and
aggregate count / avg (rounded to 2 decimals) / min / max humidity. -/
def get_recent_readings (store : Store) (chat_id : ℤ) (minutes limit : ℤ)
    (now : ℚ) : Except String RecentReadingsResult :=
  if minutes ≤ 0 ∨ 10080 < minutes then
    Except.error ("minutes must be between 1 and 10080")
  else if limit ≤ 0 ∨ 1000 < limit then
    Except.error ("limit must be between 1 and 1000")
  else
    match store.findUser chat_id with
    | none => Except.error ("User not found. Initialize with /start first.")
    | some user =>
      match get_recent store.readings minutes limit now with
      | Except.error e => Except.error e
      | Except.ok readings =>
        let humidity_values := readings.map (fun r => r.humidity)
        Except.ok
          { chat_id := chat_id,
            humidity_min := user.humidity_min,
            humidity_max := user.humidity_max,
            window_minutes := minutes,
            limit := limit,
            summary :=
              { count := readings.length,
                avg_humidity :=
                  if humidity_values.isEmpty then none
                  else some (pyRound2 (humidity_values.sum / (humidity_values.length : ℚ))),
                min_humidity := pyMin humidity_values,
                max_humidity := pyMax humidity_values },
            readings := readings }

/-- Helper: `foldl min` produces an element of the list (or the seed) that is
a lower bound for the seed and every element. -/
theorem foldlMin_spec (xs : List ℚ) : ∀ x : ℚ,
    (xs.foldl min x = x ∨ xs.foldl min x ∈ xs)
    ∧ xs.foldl min x ≤ x
    ∧ ∀ y ∈ xs, xs.foldl min x ≤ y := by
  induction xs with
  | nil =>
      intro x
      exact ⟨Or.inl rfl, le_refl x, fun y hy => absurd hy (List.not_mem_nil y)⟩
  | cons a rest ih =>
      intro x
      have hfold : (a :: rest).foldl min x = rest.foldl min (min x a) := rfl
      obtain ⟨hmem, hle, hall⟩ := ih (min x a)
      refine ⟨?_, ?_, ?_⟩
      · rw [hfold]
        rcases hmem with h | h
        · rcases le_total x a with hxa | hax
          · left
            rw [h, min_eq_left hxa]
          · right
            rw [h, min_eq_right hax]
            exact List.mem_cons_self a rest
        · right
          exact List.mem_cons_of_mem a h
      · rw [hfold]
        exact le_trans hle (min_le_left x a)
      · intro y hy
        rw [hfold]
        rcases List.mem_cons.mp hy with rfl | hy'
        · exact le_trans hle (min_le_right x _)
        · exact hall y hy'

/-- Helper: `foldl max` produces an element of the list (or the seed) that is
an upper bound for the seed and every element. -/
theorem foldlMax_spec (xs : List ℚ) : ∀ x : ℚ,
    (xs.foldl max x = x ∨ xs.foldl max x ∈ xs)
    ∧ x ≤ xs.foldl max x
    ∧ ∀ y ∈ xs, y ≤ xs.foldl max x := by
  induction xs with
  | nil =>
      intro x
      exact ⟨Or.inl rfl, le_refl x, fun y hy => absurd hy (List.not_mem_nil y)⟩
  | cons a rest ih =>
      intro x
      have hfold : (a :: rest).foldl max x = rest.foldl max (max x a) := rfl
      obtain ⟨hmem, hle, hall⟩ := ih (max x a)
      refine ⟨?_, ?_, ?_⟩
      · rw [hfold]
        rcases hmem with h | h
        · rcases le_total x a with hxa | hax
          · right
            rw [h, max_eq_right hxa]
            exact List.mem_cons_self a rest
          · left
            rw [h, max_eq_left hax]
        · right
          exact List.mem_cons_of_mem a h
      · rw [hfold]
        exact le_trans (le_max_left x a) hle
      · intro y hy
        rw [hfold]
        rcases List.mem_cons.mp hy with rfl | hy'
        · exact le_trans (le_max_right x _) hle
        · exact hall y hy'

/-- Helper: Python `min` over a nonempty list returns its least element. -/
theorem pyMin_spec (xs : List ℚ) (m : ℚ) (h : pyMin xs = some m) :
    m ∈ xs ∧ ∀ y ∈ xs, m ≤ y := by
  cases xs with
  | nil => cases h
  | cons x rest =>
      have h' : rest.foldl min x = m := by
        simpa [pyMin] using h
      obtain ⟨hmem, hle, hall⟩ := foldlMin_spec rest x
      subst h'
      constructor
      · rcases hmem with h0 | h0
        · rw [h0]
          exact List.mem_cons_self x rest
        · exact List.mem_cons_of_mem x h0
      · intro y hy
        rcases List.mem_cons.mp hy with rfl | hy'
        · exact hle
        · exact hall y hy'

/-- Helper: Python `max` over a nonempty list returns its greatest element. -/
theorem pyMax_spec (xs : List ℚ) (m : ℚ) (h : pyMax xs = some m) :
    m ∈ xs ∧ ∀ y ∈ xs, y ≤ m := by
  cases xs with
  | nil => cases h
  | cons x rest =>
      have h' : rest.foldl max x = m := by
        simpa [pyMax] using h
      obtain ⟨hmem, hle, hall⟩ := foldlMax_spec rest x
      subst h'
      constructor
      · rcases hmem with h0 | h0
        · rw [h0]
          exact List.mem_cons_self x rest
        · exact List.mem_cons_of_mem x h0
      · intro y hy
        rcases List.mem_cons.mp hy with rfl | hy'
        · exact hle
        · exact hall y hy'

/- ===== C9 ===== -/

/-- C9: `get_recent_readings` rejects `minutes` outside `[1, 10080]` (checked
first) and `limit` outside `[1, 1000]` with a validation error that is the
same for every Store (no state is read); for a registered user and valid
arguments it returns a result whose summary holds the count, the average
humidity rounded to 2 decimals, and the minimum/maximum humidity over the
returned readings, and whose reading list is ordered newest-first. -/
theorem c9_get_recent_readings_spec (store : Store) (chat_id : ℤ)
    (minutes limit : ℤ) (now : ℚ) :
    ((minutes ≤ 0 ∨ 10080 < minutes) →
      get_recent_readings store chat_id minutes limit now
        = Except.error ("minutes must be between 1 and 10080"))
    ∧ ((1 ≤ minutes ∧ minutes ≤ 10080 ∧ (limit ≤ 0 ∨ 1000 < limit)) →
      get_recent_readings store chat_id minutes limit now
        = Except.error ("limit must be between 1 and 1000"))
    ∧ (∀ user, store.findUser chat_id = some user →
        1 ≤ minutes → minutes ≤ 10080 → 1 ≤ limit → limit ≤ 1000 →
        ∃ res, get_recent_readings store chat_id minutes limit now = Except.ok res
          ∧ res.summary.count = res.readings.length
          ∧ (res.readings ≠ [] →
              res.summary.avg_humidity
                = some (pyRound2 ((res.readings.map (fun r => r.humidity)).sum
                    / (res.readings.length : ℚ))))
          ∧ (res.readings = [] →
              res.summary.avg_humidity = none ∧ res.summary.min_humidity = none
                ∧ res.summary.max_humidity = none)
          ∧ (∀ m, res.summary.min_humidity = some m →
              m ∈ res.readings.map (fun r => r.humidity)
                ∧ ∀ y ∈ res.readings.map (fun r => r.humidity), m ≤ y)
          ∧ (∀ m, res.summary.max_humidity = some m →
              m ∈ res.readings.map (fun r => r.humidity)
                ∧ ∀ y ∈ res.readings.map (fun r => r.humidity), y ≤ m)
          ∧ List.Pairwise (fun a b => b.timestamp ≤ a.timestamp) res.readings) := by
  refine ⟨?_, ?_, ?_⟩
  · intro h
    unfold get_recent_readings
    rw [if_pos h]
  · rintro ⟨h1, _h2, h3⟩
    have hc1 : ¬(minutes ≤ 0 ∨ 10080 < minutes) := by omega
    unfold get_recent_readings
    rw [if_neg hc1, if_pos h3]
  · intro user hu h1 h2 h3 h4
    have hc1 : ¬(minutes ≤ 0 ∨ 10080 < minutes) := by omega
    have hc2 : ¬(limit ≤ 0 ∨ 1000 < limit) := by omega
    have hm : ¬ minutes ≤ 0 := by omega
    have hl : ¬ limit ≤ 0 := by omega
    simp only [get_recent_readings, get_recent, hu, if_neg hc1, if_neg hc2, if_neg hm, if_neg hl]
    generalize hG :
      (sortDesc (store.readings.filter
        (fun r => decide (now - (minutes : ℚ) * 60 ≤ r.timestamp)))).take limit.toNat = L
    refine ⟨_, rfl, rfl, ?_, ?_, ?_, ?_, ?_⟩
    · intro hne
      cases L with
      | nil => exact absurd rfl hne
      | cons a l => simp [List.length_map]
    · intro he
      subst he
      simp [pyMin, pyMax]
    · intro m hm
      exact pyMin_spec _ m hm
    · intro m hm
      exact pyMax_spec _ m hm
    · rw [← hG]
      exact List.Pairwise.sublist (List.take_sublist _ _)
        (List.sorted_insertionSort readingDescOrder _)

/-- C9 witness: a concrete store with one user and two readings — minutes 0 is
rejected; minutes 60 / limit 10 yields a result with consistent count and a
newest-first list. -/
theorem c9_witness :
    get_recent_readings
        { users := [⟨5, 40, 60, 0, 0⟩], alert_states := [],
          readings := [⟨50, 20, 20, 20, 100⟩, ⟨70, 21, 21, 21, 200⟩] }
        5 0 10 260
      = Except.error ("minutes must be between 1 and 10080")
    ∧ ∃ res,
        get_recent_readings
            { users := [⟨5, 40, 60, 0, 0⟩], alert_states := [],
              readings := [⟨50, 20, 20, 20, 100⟩, ⟨70, 21, 21, 21, 200⟩] }
            5 60 10 260
          = Except.ok res
        ∧ res.summary.count = res.readings.length
        ∧ List.Pairwise (fun a b => b.timestamp ≤ a.timestamp) res.readings := by
  constructor
  · exact (c9_get_recent_readings_spec _ 5 0 10 260).1 (Or.inl (by norm_num))
  · obtain ⟨res, hres, hcount, _, _, _, _, hsorted⟩ :=
      (c9_get_recent_readings_spec
        { users := [⟨5, 40, 60, 0, 0⟩], alert_states := [],
          readings := [⟨50, 20, 20, 20, 100⟩, ⟨70, 21, 21, 21, 200⟩] }
        5 60 10 260).2.2
        ⟨5, 40, 60, 0, 0⟩ (by decide) (by norm_num) (by norm_num) (by norm_num) (by norm_num)
    exact ⟨res, hres, hcount, hsorted⟩

/- ===== C10 ===== -/

/-- C10: for a registered user, `get_current_reading` with no persisted
reading returns a `no_data` result with `reading` and `age_seconds` both null
and `is_stale` true; and whenever the result carries a reading, its
`age_seconds` is a non-negative integer (clamped below at 0). -/
theorem c10_get_current_reading_spec (store : Store) (chat_id : ℤ) (now : ℚ)
    (user : User) (hu : store.findUser chat_id = some user) :
    (store.readings = [] →
      get_current_reading store chat_id 10 now
        = Except.ok { status := "no_data", chat_id := chat_id,
                      humidity_min := user.humidity_min,
                      humidity_max := user.humidity_max,
                      reading := none, age_seconds := none, is_stale := true })
    ∧ (∀ res r, get_current_reading store chat_id 10 now = Except.ok res →
        res.reading = some r → ∃ a, res.age_seconds = some a ∧ 0 ≤ a) := by
  constructor
  · intro he
    have hl : get_latest store.readings = none := by
      rw [he]
      rfl
    simp [get_current_reading, hu, hl]
  · intro res r hres hread
    cases hl : get_latest store.readings with
    | none =>
        simp only [get_current_reading, hu, hl, Except.ok.injEq] at hres
        subst hres
        cases hread
    | some rd =>
        simp only [get_current_reading, hu, hl, Except.ok.injEq] at hres
        subst hres
        exact ⟨max 0 (pyTruncInt (now - rd.timestamp)), rfl, le_max_left 0 _⟩

/-- C10 witness: a registered user with an empty history gets the `no_data`
result, and with one reading recorded 400 seconds ago gets a non-negative
age. -/
theorem c10_witness :
    get_current_reading
        { users := [⟨5, 40, 60, 0, 0⟩], alert_states := [], readings := [] } 5 10 500
      = Except.ok { status := "no_data", chat_id := 5, humidity_min := 40,
                    humidity_max := 60, reading := none, age_seconds := none,
                    is_stale := true }
    ∧ ∃ a, (⟨"stale", 5, 40, 60, some ⟨50, 20, 20, 20, 100⟩, some 400, true⟩ :
        CurrentReadingResult).age_seconds = some a ∧ 0 ≤ a := by
  constructor
  · exact (c10_get_current_reading_spec
      { users := [⟨5, 40, 60, 0, 0⟩], alert_states := [], readings := [] }
      5 500 ⟨5, 40, 60, 0, 0⟩ (by decide)).1 rfl
  · exact (c10_get_current_reading_spec
      { users := [⟨5, 40, 60, 0, 0⟩], alert_states := [],
        readings := [⟨50, 20, 20, 20, 100⟩] }
      5 500 ⟨5, 40, 60, 0, 0⟩ (by decide)).2
      ⟨"stale", 5, 40, 60, some ⟨50, 20, 20, 20, 100⟩, some 400, true⟩
      ⟨50, 20, 20, 20, 100⟩
      (by with_unfolding_all rfl) rfl
